import Mathlib

/-!
Shallow embedding of `src/nvim/rust/nvim-rs/src/types/result.rs`: the `NvimResult`
boundary adapter that wraps nvim's C `Error` struct (a tri-state tag plus a
nullable, owned, NUL-terminated message buffer) and converts it to and from the
Rust `Result<(), NvimError>` type.

Modelling conventions:
  - The C message pointer is modelled by its abstract content: `none` is the null
    pointer, `some bytes` a non-null buffer holding `bytes` (the bytes that precede
    the terminating NUL).
  - A Rust panic/abort is modelled by `Option.none` in the return type of the
    function that can panic.
  - Drop/ownership behaviour (ManuallyDrop, mem::forget, CString destructors) is
    modelled by an explicit lifecycle state machine and release-action accounting,
    since value-level Lean functions cannot observe Rust destructors directly.
-/

/-- Modelled from the spec: the foreign enum constants `nvim_sys::ErrorType_*` come
from the generated C bindings, which are not part of this repository's sources.
The spec fixes the tag as an integer with `0 = None` and distinct fixed constants
for Exception and Validation; we pick 1 and 2 for the latter two (only their
distinctness is ever used). -/
def ErrorType_kErrorTypeNone : Int := 0

/-- Modelled from the spec: the foreign tag constant for an exception error. -/
def ErrorType_kErrorTypeException : Int := 1

/-- Modelled from the spec: the foreign tag constant for a validation error. -/
def ErrorType_kErrorTypeValidation : Int := 2

/-- The foreign error struct `nvim_sys::Error` (wrapped by `NvimResult`, result.rs
line 8): a tag `type_` and a nullable message pointer `msg`. -/
structure Error where
  type_ : Int
  msg : Option (List Nat)
deriving DecidableEq, Repr

/-- Wraps nvim's `ErrorType` (result.rs lines 93-98). -/
inductive NvimErrorKind
  | Exception
  | Validation
deriving DecidableEq, Repr

/-- The error type when converting `NvimResult` into a Rust `Result` (result.rs
lines 100-105); `msg` models the owned `CString` content. -/
structure NvimError where
  kind : NvimErrorKind
  msg : List Nat
deriving DecidableEq, Repr

/-- The adapter type `NvimResult` (result.rs line 8): wraps one
`ManuallyDrop<nvim_sys::Error>`. The `ManuallyDrop` aspect (suppression of
automatic field teardown) is modelled separately by the lifecycle state machine
below. -/
structure NvimResult where
  inner : Error
deriving DecidableEq, Repr

/-- Creates a new Ok `NvimResult` (result.rs lines 12-17): tag None, null message. -/
def NvimResult.new_ok : NvimResult :=
  ⟨{ type_ := ErrorType_kErrorTypeNone, msg := none }⟩

/-- Consumes this object and returns nvim's `Error` (result.rs lines 22-26); the
value-level content of `ManuallyDrop::take`. The accompanying `mem::forget` is
modelled by the lifecycle state machine below. -/
def NvimResult.into_ffi (r : NvimResult) : Error :=
  r.inner

/-- Creates an `NvimResult` from Rust's `Result` (result.rs lines 36-49). The Err
arm stores the error's message content as the (non-null) foreign buffer. -/
def NvimResult.from_result (result : Except NvimError Unit) : NvimResult :=
  let p : Int × Option (List Nat) :=
    match result with
    | .ok () => (ErrorType_kErrorTypeNone, none)
    | .error err =>
      let t : Int :=
        match err.kind with
        | .Exception => ErrorType_kErrorTypeException
        | .Validation => ErrorType_kErrorTypeValidation
      (t, some err.msg)
  ⟨{ type_ := p.1, msg := p.2 }⟩

/-- Converts a raw message pointer into an owned `CString`, panicking on null
(result.rs lines 119-124). `none` in the result models the panic. -/
def cstring_from_raw_check_null (msg : Option (List Nat)) : Option (List Nat) :=
  match msg with
  | none => none
  | some bytes => some bytes

/-- Converts this object into a Rust `Result` (result.rs lines 52-71): an exhaustive
match on the tag, with `cstring_from_raw_check_null` on the message in the two
error arms and a panic (`none`) in the catch-all arm for unknown tags. -/
def NvimResult.into_result (r : NvimResult) : Option (Except NvimError Unit) :=
  let e := r.into_ffi
  if e.type_ = ErrorType_kErrorTypeNone then
    some (.ok ())
  else if e.type_ = ErrorType_kErrorTypeException then
    (cstring_from_raw_check_null e.msg).map fun m => .error { kind := .Exception, msg := m }
  else if e.type_ = ErrorType_kErrorTypeValidation then
    (cstring_from_raw_check_null e.msg).map fun m => .error { kind := .Validation, msg := m }
  else
    none

/-- The `Default` impl for `NvimResult` (result.rs lines 80-85): returns `new_ok()`. -/
def NvimResult.default : NvimResult :=
  NvimResult.new_ok

/-- The `From<NvimResult> for Result<(), NvimError>` impl (result.rs lines 87-91):
its body is exactly `value.into_result()`. -/
def resultFromNvimResult (value : NvimResult) : Option (Except NvimError Unit) :=
  value.into_result

/-- The label chosen by the match inside `Display for NvimError` (result.rs lines
109-112); note each arm already ends in a colon and a space. -/
def NvimErrorKind.fmtLabel : NvimErrorKind → List Char
  | .Exception => "Exception: ".data
  | .Validation => "Validation: ".data

/-- The `Display` impl for `NvimError` (result.rs lines 107-115): it writes the
format string with the label above followed by another colon-space and then the
message. `msgChars` stands for the characters produced by `to_string_lossy` on the
message bytes; the formatting structure is independent of that rendering. -/
def NvimError.fmt (kind : NvimErrorKind) (msgChars : List Char) : List Char :=
  kind.fmtLabel ++ ": ".data ++ msgChars

/-- The clean kind name, with no trailing separator; used to state what a single
clean label in the display output would look like. -/
def NvimErrorKind.cleanName : NvimErrorKind → List Char
  | .Exception => "Exception".data
  | .Validation => "Validation".data

/-! Lifecycle / ownership model.

Rust destructors are invisible to a value-level embedding, so the drop behaviour of
`NvimResult` (result.rs lines 22-26 and 74-78) is modelled by an explicit two-state
lifecycle and by the release action a drop performs. -/

/-- The release actions a destructor can perform on the message buffer:
nothing, a call to the foreign side's free function (`nvim_sys::xfree`), or a
deallocation through the host (Rust) allocator. -/
inductive ReleaseAction
  | noAction
  | foreignFree
  | hostFree
deriving DecidableEq, Repr

/-- Modelled from the spec: `nvim_sys::xfree_clear` lives in the wrapped C library,
not in this repository's sources. Per the spec it releases the buffer through the
foreign side's designated free function when the pointer is non-null (a free of a
null pointer is a no-op) and nulls the pointer out. Returns the action performed
and the new pointer value. -/
def xfree_clear (msg : Option (List Nat)) : ReleaseAction × Option (List Nat) :=
  match msg with
  | none => (.noAction, none)
  | some _ => (.foreignFree, none)

/-- Lifecycle state of an `NvimResult`: it either still owns its representation, or
the representation has been extracted (`ManuallyDrop::take` followed by
`mem::forget`, result.rs lines 23-24 — also performed internally by `into_result`
via `into_ffi`, line 53). -/
inductive LifeState
  | owned (e : Error)
  | extracted
deriving DecidableEq, Repr

/-- The lifecycle transition of `into_ffi` (result.rs lines 22-26): from the owned
state, yield the representation by value and leave the instance extracted. -/
def intoFfiStep (e : Error) : Error × LifeState :=
  (e, .extracted)

/-- The lifecycle states reachable from a given state by the one operation that
changes state, the one-shot hand-off `into_ffi` (including its internal use by
`into_result`). An extracted instance has been consumed in Rust's move sense, so
no operation applies to it. -/
def lifeNext : LifeState → List LifeState
  | .owned _ => [.extracted]
  | .extracted => []

/-- The release action performed when an `NvimResult` in the given lifecycle state
is destroyed. In the owned state, `Drop::drop` (result.rs lines 74-78) calls
`xfree_clear` on the message pointer; in the extracted state `mem::forget`
(line 24) has disarmed the drop, so nothing runs. `ManuallyDrop` suppresses any
automatic field-level teardown, so no host-allocator path exists in either case. -/
def dropAction : LifeState → ReleaseAction
  | .owned e => (xfree_clear e.msg).1
  | .extracted => .noAction

/-! Ownership accounting for `from_result`'s Err arm (result.rs lines 39-46).

The message buffer there starts life owned by the `CString` inside the
`NvimError`. Rust offers two ways to hand out that buffer's pointer, with
different ownership semantics. -/

/-- The two `CString` pointer hand-outs in Rust: `as_ptr` borrows the buffer (the
`CString` keeps ownership and its destructor still frees the buffer), while
`into_raw` consumes the `CString` and transfers ownership (its destructor is
disarmed). -/
inductive CStrPtrFn
  | as_ptr
  | into_raw
deriving DecidableEq, Repr

/-- Whether the `CString` destructor still frees the backing buffer after the given
pointer hand-out: `as_ptr` leaves it armed, `into_raw` disarms it. -/
def cstringDropStillFrees : CStrPtrFn → Bool
  | .as_ptr => true
  | .into_raw => false

/-- The hand-out `from_result`'s Err arm actually uses (result.rs line 44):
`err.msg.as_ptr() as *mut i8`. -/
def fromResultPtrFn : CStrPtrFn :=
  CStrPtrFn.as_ptr

/-- Number of times the Err-case message buffer is freed over the full lifecycle
of `from_result (Err e)` followed by dropping the returned `NvimResult` while
still owned: one free by the `CString` destructor when `err` goes out of scope at
the end of the Err arm (unless the hand-out transferred ownership), plus one free
by the `NvimResult` drop whenever its stored pointer is non-null. -/
def fromResultErrLifecycleFrees (e : NvimError) : Nat :=
  (if cstringDropStillFrees fromResultPtrFn then 1 else 0) +
    (if dropAction (.owned (NvimResult.from_result (.error e)).inner) =
        ReleaseAction.foreignFree then 1 else 0)

/-! Claim theorems. -/

/-- Helper: each display label from the source is the clean kind name followed by a
colon and a space, hence two characters longer. -/
theorem fmtLabel_length (k : NvimErrorKind) :
    k.fmtLabel.length = k.cleanName.length + 2 := by
  cases k <;> rfl

/-- C1: Round-trip identity — for every host outcome value `v` (success, or an
error of either kind with any message bytes), `from_result` followed by
`into_result` yields `v` back: the same success/failure case, the same kind, and
identical message content. -/
theorem from_result_into_result_roundtrip (v : Except NvimError Unit) :
    (NvimResult.from_result v).into_result = some v := by
  match v with
  | .ok () => rfl
  | .error e =>
    obtain ⟨kind, msg⟩ := e
    cases kind <;> rfl

/-- C2 (evidence): over the lifecycle consisting of `from_result (Err e)` followed
by dropping the returned `NvimResult` while still owned, the message buffer is
freed twice — once by the `CString` destructor (because line 44 uses `as_ptr`,
which does not transfer ownership) and once by the `NvimResult` drop — instead of
the single free that exclusive destructor responsibility would give. -/
theorem from_result_err_double_free (e : NvimError) :
    fromResultErrLifecycleFrees e = 2 := by
  obtain ⟨kind, msg⟩ := e
  cases kind <;> rfl

/-- C3: `into_result` classifies by tag — a None tag yields success (whatever the
message pointer holds), an Exception tag yields a failure of kind Exception whose
message is exactly the buffer content, and a Validation tag likewise with kind
Validation. -/
theorem into_result_classifies (m0 : Option (List Nat)) (msg : List Nat) :
    (NvimResult.mk { type_ := ErrorType_kErrorTypeNone, msg := m0 }).into_result
        = some (.ok ()) ∧
    (NvimResult.mk { type_ := ErrorType_kErrorTypeException, msg := some msg }).into_result
        = some (.error { kind := .Exception, msg := msg }) ∧
    (NvimResult.mk { type_ := ErrorType_kErrorTypeValidation, msg := some msg }).into_result
        = some (.error { kind := .Validation, msg := msg }) :=
  ⟨rfl, rfl, rfl⟩

/-- C4: for a representation whose tag is Exception or Validation but whose message
pointer is null, `into_result` panics (modelled by `none`) rather than producing
any failure value. -/
theorem into_result_null_msg_panics :
    (NvimResult.mk { type_ := ErrorType_kErrorTypeException, msg := none }).into_result
        = none ∧
    (NvimResult.mk { type_ := ErrorType_kErrorTypeValidation, msg := none }).into_result
        = none :=
  ⟨rfl, rfl⟩

/-- C5: for every representation whose tag lies outside the known set
{None, Exception, Validation}, `into_result` panics (modelled by `none`); it never
maps such a tag to success or to one of the known error kinds. -/
theorem into_result_unknown_tag (t : Int) (msg : Option (List Nat))
    (h1 : t ≠ ErrorType_kErrorTypeNone) (h2 : t ≠ ErrorType_kErrorTypeException)
    (h3 : t ≠ ErrorType_kErrorTypeValidation) :
    (NvimResult.mk { type_ := t, msg := msg }).into_result = none := by
  simp [NvimResult.into_result, NvimResult.into_ffi, h1, h2, h3]

/-- C5 witness: the unknown-tag theorem applied at the concrete tag 5 with a null
message. -/
theorem into_result_unknown_tag_witness :
    ((5 : Int) ≠ ErrorType_kErrorTypeNone ∧ (5 : Int) ≠ ErrorType_kErrorTypeException ∧
      (5 : Int) ≠ ErrorType_kErrorTypeValidation) ∧
    (NvimResult.mk { type_ := 5, msg := none }).into_result = none :=
  ⟨by decide, into_result_unknown_tag 5 none (by decide) (by decide) (by decide)⟩

/-- C6: Single release — `into_ffi` (also the internal extraction of `into_result`)
lands every instance in the extracted state, dropping an extracted instance
performs no release action, and no lifecycle operation leads out of the extracted
state (in particular not back to owned). -/
theorem extracted_drop_no_release :
    (∀ e : Error, (intoFfiStep e).2 = LifeState.extracted) ∧
    dropAction LifeState.extracted = ReleaseAction.noAction ∧
    lifeNext LifeState.extracted = [] :=
  ⟨fun _ => rfl, rfl, rfl⟩

/-- C7: Teardown — dropping an `NvimResult` that still owns its representation
releases the message buffer exactly when it is non-null, and the release goes
through the foreign side's free function (in particular it is never the host's
native deallocation path, which would be `ReleaseAction.hostFree`). -/
theorem owned_drop_releases_foreign (e : Error) :
    dropAction (.owned e) =
      (if e.msg.isSome then ReleaseAction.foreignFree else ReleaseAction.noAction) := by
  obtain ⟨t, m⟩ := e
  cases m <;> rfl

/-- C8: Ok-state default — `new_ok` is the representation with tag None and null
message, the default value equals `new_ok`, and both convert via `into_result` to
success with no message. -/
theorem new_ok_default_ok :
    NvimResult.new_ok = ⟨{ type_ := ErrorType_kErrorTypeNone, msg := none }⟩ ∧
    NvimResult.default = NvimResult.new_ok ∧
    NvimResult.new_ok.into_result = some (.ok ()) ∧
    NvimResult.default.into_result = some (.ok ()) :=
  ⟨rfl, rfl, rfl, rfl⟩

/-- C9: for every error kind and every rendered message, the display output is the
clean kind label followed by a doubled ": " separator before the message (the
match arms already end in ": " and the format string appends another), and in
particular it differs from the single-clean-label format. -/
theorem display_doubled_label (k : NvimErrorKind) (m : List Char) :
    NvimError.fmt k m = k.cleanName ++ ": ".data ++ ": ".data ++ m ∧
    NvimError.fmt k m ≠ k.cleanName ++ ": ".data ++ m := by
  refine ⟨by cases k <;> rfl, fun h => ?_⟩
  have hl := congrArg List.length h
  simp only [NvimError.fmt, List.length_append] at hl
  rw [fmtLabel_length] at hl
  omega

/-- C9 witness: the doubled-label theorem applied at the Exception kind with the
message "boom". -/
theorem display_doubled_label_witness :
    NvimError.fmt NvimErrorKind.Exception "boom".data =
        NvimErrorKind.Exception.cleanName ++ ": ".data ++ ": ".data ++ "boom".data ∧
    NvimError.fmt NvimErrorKind.Exception "boom".data ≠
        NvimErrorKind.Exception.cleanName ++ ": ".data ++ "boom".data :=
  display_doubled_label NvimErrorKind.Exception "boom".data

/-- C10: the `From<NvimResult>` impl for `Result<(), NvimError>` agrees with
`into_result` on every value — same success/failure case, kind, message, and the
same panic behaviour, since its body is exactly `value.into_result()`. -/
theorem from_impl_eq_into_result (value : NvimResult) :
    resultFromNvimResult value = value.into_result :=
  rfl
